import Mathlib

/-!
Shallow embedding of the TLS certificate live-reload subsystem of
`src/main.ts` (public-pool bootstrap), together with theorems settling
the specification claims about it.

The embedded fragments are:
  * the `API_SECURE` gate (`secure = process.env.API_SECURE?.toLowerCase() === 'true'`);
  * the startup https options (`readFileSync(keyPath)` / `readFileSync(certPath)`);
  * the debounce logic of `scheduleReload` (clearTimeout + setTimeout 500ms);
  * the reload callback body (read key, read cert, `setSecureContext`, logging,
    with a surrounding try/catch);
  * the watcher-registration block (`watch(keyPath)`, `watch(certPath)` inside
    a try/catch, plus the `setSecureContext`-capability guard).
-/

namespace PublicPool

/-- File contents as a byte sequence (what `fs.readFileSync` returns). -/
abbrev Bytes := List Nat

/-- The two watched secret files: `secrets/key.pem` and `secrets/cert.pem`. -/
inductive SecretFile where
  | key
  | cert
deriving DecidableEq, Repr

/-- Errors thrown inside the reload pipeline: a read error from
`readFileSync` on one of the two files, or a rejection thrown by
`server.setSecureContext`. -/
inductive TlsError where
  | readErr (f : SecretFile)
  | installErr
deriving DecidableEq, Repr

/-- Observable filesystem state for the two secret paths.
`none` models a file that is missing or unreadable (so `readFileSync`
throws); `some b` models a readable file with contents `b`
(possibly empty: Node's `readFileSync` returns an empty buffer for an
empty file, it does not throw). -/
structure FsState where
  keyFile : Option Bytes
  certFile : Option Bytes
deriving DecidableEq, Repr

/-- `fs.readFileSync` on one of the two secret paths: throws exactly when
the file is missing or unreadable, otherwise returns the contents
unchanged (an empty file yields `[]`). -/
def readFileSync (f : SecretFile) (contents : Option Bytes) : Except TlsError Bytes :=
  match contents with
  | some b => .ok b
  | none => .error (.readErr f)

/-- A key/cert pair as passed to `server.setSecureContext({ key, cert })`. -/
structure CredPair where
  key : Bytes
  cert : Bytes
deriving DecidableEq, Repr

/-- Console output of the TLS subsystem, one constructor per call site.
Each constructor carries exactly the dynamic data the source interpolates
into the message:
  * `reloadOk t` — `console.log` of
    `[TLS] Reloaded certificate @ ` followed by `new Date().toISOString()`,
    so it carries the current time `t`;
  * `reloadFail e` — `console.error('[TLS] Failed to reload certificate:', e)`,
    which interpolates only the caught error, no date;
  * `watching` — `console.log('[TLS] Watching cert/key for changes')`;
  * `watchFail` — `console.error('[TLS] Failed to watch cert/key files:', e)`;
  * `warnNoReload` — `console.warn('[TLS] Dynamic cert reload not available (non-HTTPS server?)')`. -/
inductive LogLine where
  | reloadOk (t : Nat)
  | reloadFail (e : TlsError)
  | watching
  | watchFail
  | warnNoReload
deriving DecidableEq, Repr

/-- Whether a log line includes a timestamp: only the success line of the
reload callback interpolates `new Date().toISOString()`; every other
console call in the subsystem emits a fixed message plus, at most, the
caught error object. -/
def LogLine.hasTimestamp : LogLine → Bool
  | .reloadOk _ => true
  | _ => false

/-- State of the https listener as seen by the reload pipeline:
the credential pair currently active (`setSecureContext` target),
the trace of arguments passed to `setSecureContext` so far, and the
console log. -/
structure ListenerState where
  activePair : CredPair
  installCalls : List CredPair
  log : List LogLine
deriving Repr

/-- Environment of one execution of the debounced reload callback:
the filesystem contents at the moment the timer fires, the TLS stack's
acceptance predicate for `setSecureContext` (`true` = install succeeds,
`false` = it throws), and the wall-clock time `now` read by `new Date()`. -/
structure ReloadEnv where
  fs : FsState
  accept : CredPair → Bool
  now : Nat

/-- The body of the debounced reload callback in `scheduleReload`:

```
try {
  const key = readFileSync(keyPath);
  const cert = readFileSync(certPath);
  server.setSecureContext({ key, cert });
  console.log(`[TLS] Reloaded certificate @ ${new Date().toISOString()}`);
} catch (e) {
  console.error('[TLS] Failed to reload certificate:', e);
}
```

A throw from either read skips the install and lands in the catch; a
throw from `setSecureContext` (pair rejected) also lands in the catch.
`activePair` is updated only by a successful `setSecureContext`;
`installCalls` records every invocation of `setSecureContext`. -/
def reloadBody (env : ReloadEnv) (s : ListenerState) : ListenerState :=
  match readFileSync .key env.fs.keyFile with
  | .error e => { s with log := s.log ++ [.reloadFail e] }
  | .ok key =>
    match readFileSync .cert env.fs.certFile with
    | .error e => { s with log := s.log ++ [.reloadFail e] }
    | .ok cert =>
      if env.accept ⟨key, cert⟩ then
        { activePair := ⟨key, cert⟩,
          installCalls := s.installCalls ++ [⟨key, cert⟩],
          log := s.log ++ [.reloadOk env.now] }
      else
        { s with
          installCalls := s.installCalls ++ [⟨key, cert⟩],
          log := s.log ++ [.reloadFail .installErr] }

/-- Whether a reload attempt in environment `env` succeeds: both files
readable and the resulting pair accepted by `setSecureContext`. -/
def attemptSucceeds (env : ReloadEnv) : Bool :=
  match env.fs.keyFile, env.fs.certFile with
  | some k, some c => env.accept ⟨k, c⟩
  | _, _ => false

/-- The pair a reload attempt installs when it succeeds, `none` otherwise. -/
def successPair (env : ReloadEnv) : Option CredPair :=
  match env.fs.keyFile, env.fs.certFile with
  | some k, some c => if env.accept ⟨k, c⟩ then some ⟨k, c⟩ else none
  | _, _ => none

/-- A sequence of reload attempts executed in order. -/
def runAttempts (s : ListenerState) (envs : List ReloadEnv) : ListenerState :=
  envs.foldl (fun st e => reloadBody e st) s

/-- The pairs successfully installed by a sequence of attempts, in order. -/
def successPairs (envs : List ReloadEnv) : List CredPair :=
  envs.filterMap successPair

/-- The debounce quiet interval of `scheduleReload`: `setTimeout(..., 500)`. -/
def quietInterval : Nat := 500

/-- Debounce semantics of `scheduleReload` over a time-ordered list of
incoming change signals: each signal clears any pending timer
(`clearTimeout`) and arms a fresh one due `quietInterval` later
(`setTimeout`). The timer armed by a signal at time `t` fires at
`t + quietInterval` unless the next signal arrives strictly before that
deadline, in which case it is cleared. Returns the list of times at
which the reload callback actually runs. -/
def fireTimes : List Nat → List Nat
  | [] => []
  | [t] => [t + quietInterval]
  | t :: t2 :: ts =>
    if t2 < t + quietInterval then fireTimes (t2 :: ts)
    else (t + quietInterval) :: fireTimes (t2 :: ts)

/-- A time-ordered signal list forming one burst: each consecutive pair of
signal times is ordered and spaced strictly less than the quiet interval
apart. -/
def spacedUnder : List Nat → Bool
  | [] => true
  | [_] => true
  | t :: t2 :: ts => (t ≤ t2 && t2 < t + quietInterval) && spacedUnder (t2 :: ts)

/-- Result of the watcher-registration block of `bootstrap`: which of the
two paths ended up with a registered `fs.watch`, and the console lines
emitted while setting up. -/
structure HotReloadSetup where
  watchers : List SecretFile
  log : List LogLine
deriving DecidableEq, Repr

/-- The hot-reload setup block of `bootstrap`:

```
if (secure) {
  if (typeof server?.setSecureContext === 'function') {
    ...
    try {
      watch(keyPath, { persistent: true }, scheduleReload);
      watch(certPath, { persistent: true }, scheduleReload);
      console.log('[TLS] Watching cert/key for changes');
    } catch (e) {
      console.error('[TLS] Failed to watch cert/key files:', e);
    }
  } else {
    console.warn('[TLS] Dynamic cert reload not available (non-HTTPS server?)');
  }
}
```

`watchKeyOk`/`watchCertOk` say whether the respective `watch` call
registers successfully (`false` = it throws). The calls run in order:
if `watch(keyPath)` throws, no watcher is registered; if it succeeds and
`watch(certPath)` throws, the key watcher is already registered and the
catch block does not undo it. The catch only logs; the host process
continues either way. -/
def setupHotReload (secure : Bool) (hasSetSecureContext : Bool)
    (watchKeyOk : Bool) (watchCertOk : Bool) : HotReloadSetup :=
  if secure then
    if hasSetSecureContext then
      if watchKeyOk then
        if watchCertOk then ⟨[.key, .cert], [.watching]⟩
        else ⟨[.key], [.watchFail]⟩
      else ⟨[], [.watchFail]⟩
    else ⟨[], [.warnNoReload]⟩
  else ⟨[], []⟩

/-- The change signals the debounce logic receives, given the registered
watchers and a list of timed writes: a write to a path produces a signal
exactly when that path has a registered watcher (both watchers invoke
the same shared `scheduleReload`). -/
def signalsFor (watchers : List SecretFile) (writes : List (Nat × SecretFile)) : List Nat :=
  (writes.filter (fun w => decide (w.2 ∈ watchers))).map (fun w => w.1)

/-- `String.prototype.toLowerCase`, character by character. -/
def toLowerCase (s : String) : String := ⟨s.data.map Char.toLower⟩

/-- The TLS gate of `bootstrap`:
`const secure = process.env.API_SECURE?.toLowerCase() === 'true';`
(`none` models an unset variable: optional chaining yields `undefined`,
and `undefined === 'true'` is `false`). -/
def secureFlag (apiSecure : Option String) : Bool :=
  match apiSecure with
  | none => false
  | some s => toLowerCase s == "true"

/-- The single console line appended by one execution of the reload
callback body: the error line from the catch block when a read or the
install throws, the success line (which interpolates `new Date()`)
otherwise. -/
def reloadLogLine (env : ReloadEnv) : LogLine :=
  match readFileSync .key env.fs.keyFile with
  | .error e => .reloadFail e
  | .ok key =>
    match readFileSync .cert env.fs.certFile with
    | .error e => .reloadFail e
    | .ok cert =>
      if env.accept ⟨key, cert⟩ then .reloadOk env.now else .reloadFail .installErr

/-- The startup https options of `bootstrap`: when `secure`, both files
are read with `readFileSync` (an uncaught throw aborts startup, modelled
as `.error`); when not `secure`, `options` stays `{}` and no https pair
exists. -/
def startupOptions (fs : FsState) (secure : Bool) : Except TlsError (Option CredPair) :=
  if secure then
    match readFileSync .key fs.keyFile with
    | .error e => .error e
    | .ok k =>
      match readFileSync .cert fs.certFile with
      | .error e => .error e
      | .ok c => .ok (some ⟨k, c⟩)
  else .ok none

/-! ## Debounce behaviour of `scheduleReload` -/

/-- Over one burst (every consecutive gap strictly below the quiet
interval), each signal clears the pending timer, so only the timer armed
by the last signal ever fires. -/
theorem fireTimes_of_spaced (ts : List Nat) (h : ts ≠ []) (hs : spacedUnder ts = true) :
    fireTimes ts = [ts.getLast h + quietInterval] := by
  induction ts with
  | nil => exact absurd rfl h
  | cons t ts ih =>
    cases ts with
    | nil => rfl
    | cons t2 ts2 =>
      simp only [spacedUnder, Bool.and_eq_true, decide_eq_true_eq] at hs
      rw [List.getLast_cons (by simp)]
      show fireTimes (t :: t2 :: ts2) = _
      rw [fireTimes, if_pos hs.1.2]
      exact ih (by simp) hs.2

/-- C1: for every burst of N ≥ 1 change signals in which each
consecutive pair is spaced less than the 500ms quiet interval apart, the
reload callback runs exactly once, at `quietInterval` past the timestamp
of the last signal of the burst. -/
theorem debounce_collapse (ts : List Nat) (h : ts ≠ []) (hs : spacedUnder ts = true) :
    fireTimes ts = [ts.getLast h + quietInterval] :=
  fireTimes_of_spaced ts h hs

theorem debounce_collapse_witness :
    ([0, 100, 300] : List Nat) ≠ [] ∧ spacedUnder [0, 100, 300] = true ∧
      fireTimes [0, 100, 300]
        = [([0, 100, 300] : List Nat).getLast (by decide) + quietInterval] :=
  ⟨by decide, by decide, debounce_collapse [0, 100, 300] (by decide) (by decide)⟩

/-- C3: while a stream of signals with every gap below the quiet interval
is still running (any observation time before the last signal's deadline,
in particular any time up to the latest signal so far), no reload has
fired: each new signal invalidates the pending timer before it elapses. -/
theorem sustained_stream_no_fire (ts : List Nat) (h : ts ≠ []) (hs : spacedUnder ts = true)
    (T : Nat) (hT : T < ts.getLast h + quietInterval) :
    (fireTimes ts).filter (fun d => decide (d ≤ T)) = [] := by
  rw [fireTimes_of_spaced ts h hs]
  simp only [List.filter_eq_nil_iff, List.mem_singleton, decide_eq_true_eq]
  intro a ha
  omega

theorem sustained_stream_no_fire_witness :
    ([0, 400, 799] : List Nat) ≠ [] ∧ spacedUnder [0, 400, 799] = true ∧
      799 < ([0, 400, 799] : List Nat).getLast (by decide) + quietInterval ∧
      (fireTimes [0, 400, 799]).filter (fun d => decide (d ≤ 799)) = [] :=
  ⟨by decide, by decide, by decide,
    sustained_stream_no_fire [0, 400, 799] (by decide) (by decide) 799 (by decide)⟩

/-- C4: two signals spaced more than the quiet interval apart (and no
signal in between) produce two independent reload runs, one per signal,
each at its own deadline. -/
theorem gap_separation (t1 t2 : Nat) (hgap : t1 + quietInterval < t2) :
    fireTimes [t1, t2] = [t1 + quietInterval, t2 + quietInterval] := by
  have hstep : fireTimes [t1, t2]
      = if t2 < t1 + quietInterval then fireTimes [t2]
        else (t1 + quietInterval) :: fireTimes [t2] := rfl
  rw [hstep, if_neg (by omega)]
  rfl

theorem gap_separation_witness :
    0 + quietInterval < 1000 ∧
      fireTimes [0, 1000] = [0 + quietInterval, 1000 + quietInterval] :=
  ⟨by decide, gap_separation 0 1000 (by decide)⟩

/-! ## The reload callback body -/

/-- After one reload attempt the active pair is the attempt's
successfully installed pair if it succeeded, and the previous pair
otherwise. -/
theorem reloadBody_activePair (env : ReloadEnv) (s : ListenerState) :
    (reloadBody env s).activePair = (successPair env).getD s.activePair := by
  obtain ⟨⟨kf, cf⟩, acc, now⟩ := env
  cases kf with
  | none => rfl
  | some k =>
    cases cf with
    | none => rfl
    | some c =>
      by_cases hacc : acc ⟨k, c⟩ <;>
        simp [reloadBody, successPair, readFileSync, hacc]

/-- An attempt installs nothing exactly when it does not succeed. -/
theorem successPair_eq_none (env : ReloadEnv) :
    successPair env = none ↔ attemptSucceeds env = false := by
  obtain ⟨⟨kf, cf⟩, acc, now⟩ := env
  cases kf <;> cases cf <;> simp [successPair, attemptSucceeds]

/-- Over any sequence of attempts, the active pair is the most recently
successfully installed pair, or the initial one if none succeeded. -/
theorem runAttempts_activePair (s0 : ListenerState) (envs : List ReloadEnv) :
    (runAttempts s0 envs).activePair = (successPairs envs).getLastD s0.activePair := by
  induction envs generalizing s0 with
  | nil => rfl
  | cons e es ih =>
    show (runAttempts (reloadBody e s0) es).activePair = _
    rw [ih, reloadBody_activePair]
    simp only [successPairs, List.filterMap_cons]
    cases he : successPair e with
    | none => rfl
    | some p => exact (List.getLastD_cons _ _ _).symm

/-- C2: a reload attempt in which reading the key file, reading the cert
file, or installing the pair fails leaves the active credential pair
byte-identical to the pair active before the attempt; over any sequence
of attempts, the active pair is always either the startup pair or the
most recently successfully installed pair. -/
theorem reload_atomicity :
    (∀ env s, attemptSucceeds env = false → (reloadBody env s).activePair = s.activePair)
    ∧ (∀ s0 envs, (runAttempts s0 envs).activePair
        = (successPairs envs).getLastD s0.activePair) := by
  constructor
  · intro env s hfail
    rw [reloadBody_activePair, (successPair_eq_none env).mpr hfail]
    rfl
  · exact runAttempts_activePair

theorem reload_atomicity_witness :
    attemptSucceeds ⟨⟨some [1], none⟩, fun _ => true, 0⟩ = false
    ∧ (reloadBody ⟨⟨some [1], none⟩, fun _ => true, 0⟩
        ⟨⟨[7], [8]⟩, [], []⟩).activePair = (ListenerState.mk ⟨[7], [8]⟩ [] []).activePair :=
  ⟨rfl, reload_atomicity.1 ⟨⟨some [1], none⟩, fun _ => true, 0⟩ ⟨⟨[7], [8]⟩, [], []⟩ rfl⟩

/-- C5: every invocation of `setSecureContext` recorded during a reload
attempt either predates the attempt or carries exactly the key bytes and
cert bytes that were both successfully read from the filesystem within
that same attempt; no call ever mixes reads or passes a missing member. -/
theorem no_partial_pair (env : ReloadEnv) (s : ListenerState) (p : CredPair)
    (hp : p ∈ (reloadBody env s).installCalls) :
    p ∈ s.installCalls
      ∨ (env.fs.keyFile = some p.key ∧ env.fs.certFile = some p.cert) := by
  obtain ⟨⟨kf, cf⟩, acc, now⟩ := env
  cases kf with
  | none => exact Or.inl hp
  | some k =>
    cases cf with
    | none => exact Or.inl hp
    | some c =>
      have hcalls : (reloadBody ⟨⟨some k, some c⟩, acc, now⟩ s).installCalls
          = s.installCalls ++ [⟨k, c⟩] := by
        simp only [reloadBody, readFileSync]
        split <;> rfl
      rw [hcalls] at hp
      rcases List.mem_append.mp hp with h | h
      · exact Or.inl h
      · have hpk := List.mem_singleton.mp h
        subst hpk
        exact Or.inr ⟨rfl, rfl⟩

theorem no_partial_pair_witness :
    CredPair.mk [1] [2] ∈ (reloadBody ⟨⟨some [1], some [2]⟩, fun _ => true, 5⟩
        ⟨⟨[7], [8]⟩, [], []⟩).installCalls
    ∧ (CredPair.mk [1] [2] ∈ (ListenerState.mk ⟨[7], [8]⟩ [] []).installCalls
        ∨ ((FsState.mk (some [1]) (some [2])).keyFile = some (CredPair.mk [1] [2]).key
          ∧ (FsState.mk (some [1]) (some [2])).certFile = some (CredPair.mk [1] [2]).cert)) :=
  ⟨by decide,
    no_partial_pair ⟨⟨some [1], some [2]⟩, fun _ => true, 5⟩
      ⟨⟨[7], [8]⟩, [], []⟩ (CredPair.mk [1] [2]) (by decide)⟩

/-- C6 (amended): `readFileSync` throws exactly when the file is missing
or unreadable; a readable file — even an empty one — is returned as-is,
and the install step is reached exactly when both files are readable,
regardless of emptiness. -/
theorem read_error_iff_missing :
    (∀ f c, (∃ e, readFileSync f c = Except.error e) ↔ c = none)
    ∧ (∀ f b, readFileSync f (some b) = Except.ok b)
    ∧ (∀ env s, (reloadBody env s).installCalls.length
        = s.installCalls.length
          + (if env.fs.keyFile.isSome && env.fs.certFile.isSome then 1 else 0)) := by
  refine ⟨?_, fun f b => rfl, ?_⟩
  · intro f c
    cases c <;> simp [readFileSync]
  · intro env s
    obtain ⟨⟨kf, cf⟩, acc, now⟩ := env
    cases kf with
    | none => rfl
    | some k =>
      cases cf with
      | none => rfl
      | some c =>
        simp only [reloadBody, readFileSync, Option.isSome_some, Bool.and_self, if_true]
        split <;> simp

/-- C6 counterexample to the claim as stated: a reload attempt against an
empty key file does not fail at the read step; the read returns the empty
byte string and the attempt does reach the install step
(`setSecureContext` is invoked with the empty key). -/
theorem empty_file_reaches_install :
    readFileSync .key (some []) = Except.ok []
    ∧ (reloadBody ⟨⟨some [], some [1]⟩, fun _ => true, 0⟩
        ⟨⟨[9], [9]⟩, [], []⟩).installCalls = [⟨[], [1]⟩] :=
  ⟨rfl, rfl⟩

/-- C9 (amended): every reload attempt, success or failure, appends
exactly one console line; the success line carries the current timestamp,
while the failure line carries only the error and no timestamp. -/
theorem reload_observability (env : ReloadEnv) (s : ListenerState) :
    (reloadBody env s).log = s.log ++ [reloadLogLine env]
    ∧ (reloadLogLine env).hasTimestamp = attemptSucceeds env
    ∧ (attemptSucceeds env = true → reloadLogLine env = .reloadOk env.now) := by
  obtain ⟨⟨kf, cf⟩, acc, now⟩ := env
  cases kf with
  | none => exact ⟨rfl, rfl, by intro h; exact absurd h (by simp [attemptSucceeds])⟩
  | some k =>
    cases cf with
    | none => exact ⟨rfl, rfl, by intro h; exact absurd h (by simp [attemptSucceeds])⟩
    | some c =>
      by_cases hacc : acc ⟨k, c⟩ <;>
        simp [reloadBody, reloadLogLine, readFileSync, attemptSucceeds, hacc,
          LogLine.hasTimestamp]

theorem reload_observability_witness :
    (reloadBody ⟨⟨some [1], none⟩, fun _ => true, 42⟩ ⟨⟨[9], [9]⟩, [], []⟩).log
        = (ListenerState.mk ⟨[9], [9]⟩ [] []).log
          ++ [reloadLogLine ⟨⟨some [1], none⟩, fun _ => true, 42⟩]
    ∧ (reloadLogLine ⟨⟨some [1], none⟩, fun _ => true, 42⟩).hasTimestamp
        = attemptSucceeds ⟨⟨some [1], none⟩, fun _ => true, 42⟩ :=
  ⟨(reload_observability ⟨⟨some [1], none⟩, fun _ => true, 42⟩ ⟨⟨[9], [9]⟩, [], []⟩).1,
    (reload_observability ⟨⟨some [1], none⟩, fun _ => true, 42⟩ ⟨⟨[9], [9]⟩, [], []⟩).2.1⟩

/-- C9 counterexample to the claim as stated: the error line emitted by a
failed reload attempt (here the cert file is missing) is the constant
message with the caught error interpolated; it contains no timestamp. -/
theorem failed_reload_log_without_timestamp :
    (reloadBody ⟨⟨some [1], none⟩, fun _ => true, 42⟩ ⟨⟨[9], [9]⟩, [], []⟩).log
        = [.reloadFail (.readErr .cert)]
    ∧ LogLine.hasTimestamp (.reloadFail (.readErr .cert)) = false :=
  ⟨rfl, rfl⟩

/-! ## Watcher registration and the TLS gate -/

/-- With no registered watcher, writes produce no change signal. -/
theorem signalsFor_nil (writes : List (Nat × SecretFile)) :
    signalsFor [] writes = [] := by
  simp [signalsFor]

/-- C7 (amended): when the key-path watch registration throws, the
failure is reported exactly once, no watch is registered and no reload is
ever triggered afterwards; when the key watch succeeds and the cert-path
watch registration throws, the failure is likewise reported exactly once
and the process continues, but the already-registered key watcher
remains, so key-file writes still trigger reload attempts. -/
theorem watch_failure_degradation (wk wc : Bool) (h : wk = false ∨ wc = false) :
    ((setupHotReload true true wk wc).log.count .watchFail = 1)
    ∧ (wk = false → (setupHotReload true true wk wc).watchers = [])
    ∧ (wk = false →
        ∀ writes, fireTimes (signalsFor (setupHotReload true true wk wc).watchers writes) = [])
    ∧ (wk = true → wc = false →
        (setupHotReload true true wk wc).watchers = [SecretFile.key]) := by
  cases wk with
  | false =>
    refine ⟨rfl, fun _ => rfl, fun _ writes => ?_, fun hco => absurd hco (by simp)⟩
    show fireTimes (signalsFor [] writes) = []
    rw [signalsFor_nil]
    rfl
  | true =>
    cases wc with
    | false =>
      exact ⟨rfl, fun hco => absurd hco (by simp), fun hco => absurd hco (by simp),
        fun _ _ => rfl⟩
    | true =>
      rcases h with h | h <;> exact absurd h (by simp)

theorem watch_failure_degradation_witness :
    (setupHotReload true true false true).log.count LogLine.watchFail = 1
    ∧ (setupHotReload true true false true).watchers = []
    ∧ fireTimes (signalsFor (setupHotReload true true false true).watchers
        [(0, SecretFile.key)]) = [] :=
  ⟨(watch_failure_degradation false true (Or.inl rfl)).1,
    (watch_failure_degradation false true (Or.inl rfl)).2.1 rfl,
    (watch_failure_degradation false true (Or.inl rfl)).2.2.1 rfl [(0, SecretFile.key)]⟩

/-- C7 counterexample to the claim as stated: if the key watch registers
successfully and only the cert watch registration throws, the key watcher
stays registered, so a later write to the key file still triggers a
reload attempt — hot-reload is not fully disabled. -/
theorem cert_watch_failure_still_reloads :
    (setupHotReload true true true false).watchers = [SecretFile.key]
    ∧ fireTimes (signalsFor (setupHotReload true true true false).watchers
        [(0, SecretFile.key)]) = [quietInterval] :=
  ⟨rfl, rfl⟩

/-- C8: with TLS enabled but a listener that does not expose
`setSecureContext`, no watch is registered, the console log consists of
exactly the single warning line, and no sequence of writes to the key or
cert files ever produces a reload attempt. -/
theorem disabled_capability_guard (wk wc : Bool) (writes : List (Nat × SecretFile)) :
    (setupHotReload true false wk wc).watchers = []
    ∧ (setupHotReload true false wk wc).log = [LogLine.warnNoReload]
    ∧ fireTimes (signalsFor (setupHotReload true false wk wc).watchers writes) = [] := by
  refine ⟨rfl, rfl, ?_⟩
  show fireTimes (signalsFor [] writes) = []
  rw [signalsFor_nil]
  rfl

/-- C10: the TLS subsystem is active exactly when `API_SECURE`,
lowercased, is the string `true`: then the startup options carry the
https pair read from the two files; for every other value, including
unset, the server options carry no https pair and the hot-reload block
registers no watcher and logs nothing. -/
theorem tls_enablement (apiSec : Option String) (fs : FsState) (hs wk wc : Bool) :
    (secureFlag apiSec = true ↔ apiSec.map toLowerCase = some "true")
    ∧ (secureFlag apiSec = false →
        startupOptions fs (secureFlag apiSec) = Except.ok none
        ∧ setupHotReload (secureFlag apiSec) hs wk wc = ⟨[], []⟩)
    ∧ (∀ k c, secureFlag apiSec = true → fs.keyFile = some k → fs.certFile = some c →
        startupOptions fs (secureFlag apiSec) = Except.ok (some ⟨k, c⟩)) := by
  refine ⟨?_, ?_, ?_⟩
  · cases apiSec with
    | none => simp [secureFlag]
    | some s => simp [secureFlag]
  · intro hoff
    rw [hoff]
    exact ⟨rfl, rfl⟩
  · intro k c hsec hk hc
    rw [hsec]
    simp [startupOptions, readFileSync, hk, hc]

theorem tls_enablement_witness :
    secureFlag (some "off") = false
    ∧ startupOptions ⟨some [1], some [2]⟩ (secureFlag (some "off")) = Except.ok none
    ∧ setupHotReload (secureFlag (some "off")) true true true = ⟨[], []⟩
    ∧ startupOptions ⟨some [1], some [2]⟩ (secureFlag (some "TRUE"))
        = Except.ok (some ⟨[1], [2]⟩) :=
  ⟨by decide,
    ((tls_enablement (some "off") ⟨some [1], some [2]⟩ true true true).2.1 (by decide)).1,
    ((tls_enablement (some "off") ⟨some [1], some [2]⟩ true true true).2.1 (by decide)).2,
    (tls_enablement (some "TRUE") ⟨some [1], some [2]⟩ true true true).2.2 [1] [2]
      (by decide) rfl rfl⟩

end PublicPool
